import Mathlib

/-!
Verification development for the natural-language-to-SQL service
(`app/server/server.py` and its SQL security core).  Route handlers are
translated from `server.py`; the security-layer primitives
(`validate_identifier`, `execute_query_safely`, `check_table_exists`) live in
`core/sql_security.py`, which is not part of the provided sources, so they are
modelled from the specification of the SQL Security & Safe Execution Layer.
-/

namespace NLQ

/-- Modelled from the spec: the error taxonomy of `core/sql_security.py`
(`SQLSecurityError` and its kinds from the spec error-handling design):
identifier validation failures, unbound template placeholders, rejected
statement kinds, and DDL attempted without opt-in. -/
inductive SQLSecurityError where
  | invalidIdentifier (msg : String)
  | unboundPlaceholder (msg : String)
  | rejectedStatement (msg : String)
  | ddlNotPermitted (msg : String)
deriving Repr, DecidableEq

/-- The kind argument of `validate_identifier`: table or column. -/
inductive IdentifierKind where
  | table
  | column
deriving Repr, DecidableEq

/-- Returns true when an `Except` value is an error. -/
def isErr {ε α : Type} : Except ε α → Bool
  | .error _ => true
  | .ok _ => false

/-- Modelled from the spec: the bounded maximum identifier length enforced by
`validate_identifier` (the spec states a maximum length without fixing the
number; 64 is the conventional SQL identifier bound). -/
def MAX_IDENTIFIER_LENGTH : Nat := 64

/-- Modelled from the spec: a character allowed in a safe SQL identifier,
from the class written in the spec as letters, digits and underscore. -/
def isIdentChar (c : Char) : Bool := c.isAlphanum || c == '_'

/-- Lower-cases a character list (used instead of `String.toLower`, which the
source applies to identifiers before the reserved-word comparison). -/
def lowerChars (l : List Char) : List Char := l.map Char.toLower

/-- Modelled from the spec: the reserved SQL keywords that
`validate_identifier` refuses as identifiers. -/
def RESERVED_KEYWORDS : List String :=
  ["select", "insert", "update", "delete", "drop", "create", "alter",
   "table", "from", "where", "join", "union", "group", "order", "by",
   "having", "index", "view", "trigger", "pragma", "attach", "detach",
   "with", "as", "and", "or", "not", "null", "primary", "key", "foreign",
   "references", "limit", "offset", "values", "set", "into", "distinct",
   "exists", "between", "like", "in", "is", "case", "when", "then",
   "else", "end"]

/-- Returns true when the first character of the list is a decimal digit. -/
def headIsDigit : List Char → Bool
  | [] => false
  | c :: _ => c.isDigit

/-- Modelled from the spec: `core/sql_security.py` is not among the provided
sources; `validate_identifier(raw, kind)` is modelled from its contract: it
fails with an invalid-identifier error when `raw` is empty, exceeds the
maximum length, contains any character outside letters, digits and
underscore, starts with a digit, or equals a reserved SQL keyword; otherwise
it returns the identifier unchanged. -/
def validate_identifier (raw : String) (kind : IdentifierKind) :
    Except SQLSecurityError String :=
  if raw = "" then
    .error (.invalidIdentifier "identifier is empty")
  else if MAX_IDENTIFIER_LENGTH < raw.length then
    .error (.invalidIdentifier "identifier exceeds maximum length")
  else if raw.data.all isIdentChar = false then
    .error (.invalidIdentifier "identifier contains invalid characters")
  else if headIsDigit raw.data then
    .error (.invalidIdentifier "identifier starts with a digit")
  else if RESERVED_KEYWORDS.contains (String.mk (lowerChars raw.data)) then
    .error (.invalidIdentifier "identifier is a reserved keyword")
  else
    .ok raw

/-- Decidable equality for `Except` outcomes, so that concrete runs of the
verified operations can be checked by evaluation. -/
instance {e a : Type} [DecidableEq e] [DecidableEq a] : DecidableEq (Except e a)
  | .error x, .error y =>
    if h : x = y then .isTrue (by rw [h])
    else .isFalse (fun he => by cases he; exact h rfl)
  | .error _, .ok _ => .isFalse (fun he => by cases he)
  | .ok _, .error _ => .isFalse (fun he => by cases he)
  | .ok x, .ok y =>
    if h : x = y then .isTrue (by rw [h])
    else .isFalse (fun he => by cases he; exact h rfl)

/-- Modelled from the spec: the relational store visible to the security
layer, reduced to its catalog of table names (the only state the verified
operations inspect or mutate). -/
structure Store where
  tables : List String
deriving Repr, DecidableEq

/-- Modelled from the spec: `check_table_exists(conn, name)` from
`core/sql_security.py` (not among the provided sources), the light-weight
existence check over the store catalog used as a precondition gate. -/
def check_table_exists (store : Store) (name : String) : Bool :=
  store.tables.contains name

/-- The opening brace character of a template placeholder. -/
def openBrace : Char := '\x7b'

/-- The closing brace character of a template placeholder. -/
def closeBrace : Char := '\x7d'

/-- Modelled from the spec: the statement template engine of the security
layer.  Scans the template text; outside a placeholder characters are copied;
a placeholder name between braces is looked up among the identifier bindings
(already validated by the caller) and substituted; a placeholder with no
binding fails closed with an unbound-placeholder error.  The `mode` argument
is true while inside a placeholder and `acc` holds the reversed name read so
far. -/
def renderAux (bindings : List (String × String)) :
    Bool → List Char → List Char → Except SQLSecurityError (List Char)
  | false, _, [] => .ok []
  | false, acc, c :: rest =>
    if c = openBrace then renderAux bindings true [] rest
    else (renderAux bindings false acc rest).map (fun tail => c :: tail)
  | true, acc, [] =>
    .error (.unboundPlaceholder (String.mk acc.reverse))
  | true, acc, c :: rest =>
    if c = closeBrace then
      match (bindings.lookup (String.mk acc.reverse)) with
      | none => .error (.unboundPlaceholder (String.mk acc.reverse))
      | some v => (renderAux bindings false [] rest).map (fun tail => v.data ++ tail)
    else renderAux bindings true (c :: acc) rest

/-- Renders a statement template against identifier bindings. -/
def renderTemplate (bindings : List (String × String)) (template : String) :
    Except SQLSecurityError (List Char) :=
  renderAux bindings false [] template.data

/-- The classification produced by the policy gate: read-only or
schema-modifying. -/
inductive StatementClass where
  | READ
  | DDL
deriving Repr, DecidableEq

/-- Upper-cases a character list (the gate inspects the leading keyword
case-insensitively). -/
def upperChars (l : List Char) : List Char := l.map Char.toUpper

/-- Modelled from the spec: the policy gate `classify`.  A statement
containing a statement separator (a multi-statement batch) is rejected; the
leading keyword, case-insensitively, must be SELECT or WITH (read) or
DROP TABLE, CREATE TABLE or ALTER TABLE (DDL); anything else is rejected
unconditionally. -/
def classifyChars (stmt : List Char) : Except SQLSecurityError StatementClass :=
  if stmt.contains ';' then
    .error (.rejectedStatement "multi-statement batches are not allowed")
  else
    let u := upperChars stmt
    if "SELECT".data.isPrefixOf u then .ok .READ
    else if "WITH".data.isPrefixOf u then .ok .READ
    else if "DROP TABLE".data.isPrefixOf u then .ok .DDL
    else if "CREATE TABLE".data.isPrefixOf u then .ok .DDL
    else if "ALTER TABLE".data.isPrefixOf u then .ok .DDL
    else .error (.rejectedStatement "statement kind is not allowed")

/-- The result of a successful execution: column names in result order and
the materialized rows. -/
structure ExecutionResult where
  columns : List String
  rows : List (List String)
deriving Repr, DecidableEq

/-- Modelled from the spec: the safe executor's effect on the store catalog,
restricted to the statement shapes the verified call sites emit.  A rendered
DROP TABLE IF EXISTS removes the named table from the catalog (a no-op when
it is absent); the remaining gated statement shapes are reads, which leave
the catalog unchanged and whose row results are not modelled further. -/
def execStore (store : Store) (stmt : List Char) :
    Except SQLSecurityError ExecutionResult × Store :=
  if "DROP TABLE IF EXISTS ".data.isPrefixOf stmt then
    let t := String.mk (stmt.drop "DROP TABLE IF EXISTS ".data.length)
    (.ok ⟨[], []⟩, ⟨store.tables.filter (fun n => n != t)⟩)
  else
    (.ok ⟨[], []⟩, store)

/-- Validates every identifier binding, failing on the first invalid one. -/
def validateAll : List (String × String) → Except SQLSecurityError Unit
  | [] => .ok ()
  | (_, raw) :: rest =>
    match validate_identifier raw .table with
    | .error e => .error e
    | .ok _ => validateAll rest

/-- Modelled from the spec: `execute_query_safely(conn, template,
identifier_params, value_params, allow_ddl)` from `core/sql_security.py`
(not among the provided sources), assembled from its contract: every
identifier binding is validated, the template is rendered with the validated
identifiers (value parameters are passed to the store's native binding
mechanism, never interpolated), the rendered statement is classified by the
policy gate, DDL requires the explicit `allow_ddl` opt-in, and only then is
the statement executed against the store.  The returned pair carries the
result and the store state after the call; every failure leaves the store
unchanged. -/
def execute_query_safely (store : Store) (template : String)
    (identifier_params : List (String × String)) (value_params : List String)
    (allow_ddl : Bool) : Except SQLSecurityError ExecutionResult × Store :=
  match validateAll identifier_params with
  | .error e => (.error e, store)
  | .ok _ =>
    match renderTemplate identifier_params template with
    | .error e => (.error e, store)
    | .ok rendered =>
      match classifyChars rendered with
      | .error e => (.error e, store)
      | .ok .READ => execStore store rendered
      | .ok .DDL =>
        if allow_ddl then execStore store rendered
        else (.error (.ddlNotPermitted "DDL statements require explicit opt-in"), store)

/-- Per-table information inside a schema snapshot, as consumed by
`server.py` from `get_database_schema()`: a column-name-to-declared-type map
and a row count. -/
structure TableInfo where
  columns : List (String × String)
  row_count : Nat
deriving Repr, DecidableEq

/-- The schema snapshot consumed by the handlers: a table-name-to-info map. -/
structure SchemaInfo where
  tables : List (String × TableInfo)
deriving Repr, DecidableEq

/-- The dictionary returned by `execute_sql_safely` as consumed by
`server.py` (keys `results`, `columns`, `error`). -/
structure SQLResult where
  results : List (List String)
  columns : List String
  error : Option String
deriving Repr, DecidableEq

/-- The response model of the query endpoint (`QueryResponse` in
`core/data_models.py`), with the fields `server.py` populates. -/
structure QueryResponse where
  sql : String
  results : List (List String)
  columns : List String
  row_count : Nat
  execution_time_ms : Nat
  error : Option String
deriving Repr, DecidableEq

/-- Translated from `server.py`, `process_natural_language_query`
(lines 122-159): the schema read, SQL generation and execution steps are
supplied as arguments, each returning either a value or the message of the
exception it raised; a truthy `error` in the execution result is re-raised.
The surrounding `except Exception` turns any raised message into a response
with empty fields and `error` set to that message. -/
def process_natural_language_query (schemaStep : Except String SchemaInfo)
    (generate_sql : SchemaInfo → Except String String)
    (execute_sql_safely : String → Except String SQLResult)
    (execTime : Nat) : QueryResponse :=
  match schemaStep with
  | .error e => QueryResponse.mk "" [] [] 0 0 (some e)
  | .ok si =>
    match generate_sql si with
    | .error e => QueryResponse.mk "" [] [] 0 0 (some e)
    | .ok sql =>
      match execute_sql_safely sql with
      | .error e => QueryResponse.mk "" [] [] 0 0 (some e)
      | .ok r =>
        match r.error with
        | some e => QueryResponse.mk "" [] [] 0 0 (some e)
        | none =>
          QueryResponse.mk sql r.results r.columns r.results.length execTime none

/-- A column entry of the schema endpoint response (`ColumnInfo` in
`core/data_models.py`). -/
structure ColumnInfo where
  name : String
  colType : String
  nullable : Bool
  primary_key : Bool
deriving Repr, DecidableEq

/-- A table entry of the schema endpoint response (`TableSchema` in
`core/data_models.py`); `created_at` is modelled as an abstract timestamp. -/
structure TableSchema where
  name : String
  columns : List ColumnInfo
  row_count : Nat
  created_at : Nat
deriving Repr, DecidableEq

/-- The schema endpoint response (`DatabaseSchemaResponse`). -/
structure DatabaseSchemaResponse where
  tables : List TableSchema
  total_tables : Nat
  error : Option String
deriving Repr, DecidableEq

/-- Translated from `server.py`, `get_database_schema_endpoint`
(lines 161-198): the snapshot read is supplied as an argument; on success
every column is reported with `nullable := true` and `primary_key := false`
and every table with `created_at := now`, the time the request is handled;
on failure the response carries empty tables and the exception message. -/
def get_database_schema_endpoint (schemaStep : Except String SchemaInfo)
    (now : Nat) : DatabaseSchemaResponse :=
  match schemaStep with
  | .error e => DatabaseSchemaResponse.mk [] 0 (some e)
  | .ok s =>
    let tables := s.tables.map (fun p =>
      TableSchema.mk p.1
        (p.2.columns.map (fun c => ColumnInfo.mk c.1 c.2 true false))
        p.2.row_count now)
    DatabaseSchemaResponse.mk tables tables.length none

/-- The HTTP-level failures the delete and export handlers produce:
`HTTPException(400, ...)`, `HTTPException(404, ...)` and
`HTTPException(500, ...)`. -/
inductive HTTPError where
  | badRequest (msg : String)
  | notFound (msg : String)
  | internal (msg : String)
deriving Repr, DecidableEq

/-- The message text carried by a security error. -/
def securityMsg : SQLSecurityError → String
  | .invalidIdentifier m => m
  | .unboundPlaceholder m => m
  | .rejectedStatement m => m
  | .ddlNotPermitted m => m

/-- Translated from `server.py`, `delete_table` (lines 281-316): the table
name is validated (a security error becomes a 400), the existence check
gates the operation (a missing table becomes a 404 with the store
untouched), then the drop runs through `execute_query_safely` with
`allow_ddl := true`; any other failure becomes a 500.  The returned pair
carries the outcome and the store state after the call. -/
def delete_table (store : Store) (table_name : String) :
    Except HTTPError String × Store :=
  match validate_identifier table_name .table with
  | .error e => (.error (.badRequest (securityMsg e)), store)
  | .ok _ =>
    if check_table_exists store table_name = false then
      (.error (.notFound ("Table " ++ table_name ++ " not found")), store)
    else
      match execute_query_safely store "DROP TABLE IF EXISTS {table}"
          [("table", table_name)] [] true with
      | (.ok _, store2) =>
        (.ok ("Table " ++ table_name ++ " deleted successfully"), store2)
      | (.error e, store2) =>
        (.error (.internal ("Error deleting table: " ++ securityMsg e)), store2)

/-- Translated from `server.py`, `export_table` (lines 318-350): the table
name is validated, the existence check gates the export (a missing table
becomes a 404), then the CSV payload is produced by the supplied generator;
a security error raised by validation is not caught specially here and
surfaces through the catch-all as a 500.  Export never mutates the store. -/
def export_table (store : Store) (table_name : String)
    (generate_csv_from_table : Store → String → String) :
    Except HTTPError String :=
  match validate_identifier table_name .table with
  | .error e => .error (.internal ("Error exporting table: " ++ securityMsg e))
  | .ok _ =>
    if check_table_exists store table_name = false then
      .error (.notFound ("Table " ++ table_name ++ " not found"))
    else
      .ok (generate_csv_from_table store table_name)

/-- The parsed tabular content of an uploaded payload (header names and data
rows); the byte-level CSV/JSON/JSONL parsing is outside the verified
surface. -/
structure TabularData where
  header : List String
  rows : List (List String)
deriving Repr, DecidableEq

/-- The dictionary a converter returns to `upload_file` (keys `table_name`,
`schema`, `row_count`, `sample_data`), extended with the text of the CREATE
TABLE statement the converter issued, so that what reaches SQL text is
visible to the theorems. -/
structure ConvResult where
  table_name : String
  tschema : List (String × String)
  row_count : Nat
  sample_data : List (List String)
  create_sql : String
deriving Repr, DecidableEq

/-- Modelled from the spec: `convert_csv_to_sqlite` from
`core/file_processor.py` (not among the provided sources).  The core treats
the supplied table name as raw and untrusted and re-validates it through
`validate_identifier` before building any statement; only the validated
identifier is substituted into the CREATE TABLE text. -/
def convert_csv_to_sqlite (data : TabularData) (table_name : String) :
    Except String ConvResult :=
  match validate_identifier table_name .table with
  | .error e => .error (securityMsg e)
  | .ok v =>
    .ok (ConvResult.mk v (data.header.map (fun h => (h, "TEXT")))
      data.rows.length (data.rows.take 5)
      ("CREATE TABLE " ++ v ++ " (...)"))

/-- Modelled from the spec: `convert_json_to_sqlite` from
`core/file_processor.py` (not among the provided sources); like the CSV
converter, it re-validates the untrusted table name before any statement is
built. -/
def convert_json_to_sqlite (data : TabularData) (table_name : String) :
    Except String ConvResult :=
  match validate_identifier table_name .table with
  | .error e => .error (securityMsg e)
  | .ok v =>
    .ok (ConvResult.mk v (data.header.map (fun h => (h, "TEXT")))
      data.rows.length (data.rows.take 5)
      ("CREATE TABLE " ++ v ++ " (...)"))

/-- Modelled from the spec: `convert_jsonl_to_sqlite` from
`core/file_processor.py` (not among the provided sources); like the CSV
converter, it re-validates the untrusted table name before any statement is
built. -/
def convert_jsonl_to_sqlite (data : TabularData) (table_name : String) :
    Except String ConvResult :=
  match validate_identifier table_name .table with
  | .error e => .error (securityMsg e)
  | .ok v =>
    .ok (ConvResult.mk v (data.header.map (fun h => (h, "TEXT")))
      data.rows.length (data.rows.take 5)
      ("CREATE TABLE " ++ v ++ " (...)"))

/-- The response model of the upload endpoint (`FileUploadResponse` in
`core/data_models.py`). -/
structure FileUploadResponse where
  table_name : String
  table_schema : List (String × String)
  row_count : Nat
  sample_data : List (List String)
  error : Option String
deriving Repr, DecidableEq

/-- Suffix test on strings at the character-list level (the handler's
`filename.endswith(...)`). -/
def strEndsWith (s suffix : String) : Bool :=
  suffix.data.isSuffixOf s.data

/-- True when the string ends with one of the given suffixes. -/
def endsWithAny (s : String) (suffixes : List String) : Bool :=
  suffixes.any (fun suf => strEndsWith s suf)

/-- Translated from `server.py`, `upload_file` line 90: the table name is
derived from the filename by taking the text before the last dot
(`rsplit` with one split), lower-casing it and replacing spaces with
underscores. -/
def tableNameFromFilename (filename : String) : String :=
  let base :=
    let r := filename.data.reverse
    if r.contains '.' then ((r.dropWhile (fun c => c ≠ '.')).drop 1).reverse
    else filename.data
  String.mk ((base.map Char.toLower).map (fun c => if c = ' ' then '_' else c))

/-- Translated from `server.py`, `upload_file` (lines 81-120): an
unsupported extension raises an HTTP 400 (the 400 status with its detail is
the text of the exception), the table name is derived from the filename, the
matching converter runs, and the surrounding `except Exception` catches
every raised exception, including the 400, and returns a response with
empty fields and the exception text in `error`. -/
def upload_file (filename : String) (data : TabularData) : FileUploadResponse :=
  if endsWithAny filename [".csv", ".json", ".jsonl"] = false then
    FileUploadResponse.mk "" [] 0 []
      (some "400: Only .csv, .json, and .jsonl files are supported")
  else
    match
      (if strEndsWith filename ".csv" then
        convert_csv_to_sqlite data (tableNameFromFilename filename)
      else if strEndsWith filename ".jsonl" then
        convert_jsonl_to_sqlite data (tableNameFromFilename filename)
      else
        convert_json_to_sqlite data (tableNameFromFilename filename)) with
    | .error e => FileUploadResponse.mk "" [] 0 [] (some e)
    | .ok result =>
      FileUploadResponse.mk result.table_name result.tschema
        result.row_count result.sample_data none

/-- True when the statement's leading keyword, case-insensitively, is on the
policy gate's allow-list (SELECT, WITH, DROP TABLE, CREATE TABLE,
ALTER TABLE). -/
def allowedLeadingKeyword (stmt : List Char) : Bool :=
  "SELECT".data.isPrefixOf (upperChars stmt) ||
  "WITH".data.isPrefixOf (upperChars stmt) ||
  "DROP TABLE".data.isPrefixOf (upperChars stmt) ||
  "CREATE TABLE".data.isPrefixOf (upperChars stmt) ||
  "ALTER TABLE".data.isPrefixOf (upperChars stmt)

/-- True when the statement's leading keyword, case-insensitively, is one of
the DDL keywords (DROP TABLE, CREATE TABLE, ALTER TABLE). -/
def ddlLeadingKeyword (stmt : List Char) : Bool :=
  "DROP TABLE".data.isPrefixOf (upperChars stmt) ||
  "CREATE TABLE".data.isPrefixOf (upperChars stmt) ||
  "ALTER TABLE".data.isPrefixOf (upperChars stmt)

/-- True when a handler outcome is an HTTP 404 not-found failure. -/
def isNotFoundResult : Except HTTPError String → Bool
  | .error (.notFound _) => true
  | _ => false

/-- True when a query response carries at least one result row. -/
def rowsPopulated (r : QueryResponse) : Bool := !r.results.isEmpty

/-- True when a query response carries an error cause. -/
def errorPopulated (r : QueryResponse) : Bool := r.error.isSome

/-- Rebuilding a string from its character list is the identity. -/
theorem string_mk_data (s : String) : String.mk s.data = s := by
  cases s
  rfl

/-- A validation that does not fail returns the raw identifier unchanged. -/
theorem validate_ok_eq (raw : String) (k : IdentifierKind)
    (h : isErr (validate_identifier raw k) = false) :
    validate_identifier raw k = .ok raw := by
  unfold validate_identifier at h ⊢
  split_ifs at h ⊢ <;> first | rfl | simp [isErr] at h

/-- Whatever `validate_identifier` returns on success is the raw input. -/
theorem validate_ok_val (raw v : String) (k : IdentifierKind)
    (h : validate_identifier raw k = .ok v) : v = raw := by
  unfold validate_identifier at h
  split_ifs at h <;> first | (cases h; rfl) | simp at h

/-- A successfully validated identifier consists only of identifier
characters. -/
theorem validate_ok_chars (raw : String) (k : IdentifierKind)
    (h : isErr (validate_identifier raw k) = false) :
    raw.data.all isIdentChar = true := by
  unfold validate_identifier at h
  split_ifs at h with h1 h2 h3 h4 h5
  · simp [isErr] at h
  · simp [isErr] at h
  · simp [isErr] at h
  · exact Bool.not_eq_false _ ▸ (Bool.eq_true_of_not_eq_false h3)
  · exact Bool.eq_true_of_not_eq_false h3
  · exact Bool.eq_true_of_not_eq_false h3

/-- A list of identifier characters contains no statement separator. -/
theorem no_semicolon_of_ident (l : List Char) (h : l.all isIdentChar = true) :
    l.contains ';' = false := by
  cases hc : l.contains ';' with
  | false => rfl
  | true =>
    exact absurd (List.all_eq_true.mp h ';' (List.elem_iff.mp hc)) (by decide)

/-- Filtering out a name removes it from the catalog. -/
theorem contains_filter_ne (l : List String) (t : String) :
    (l.filter (fun n => n != t)).contains t = false := by
  cases hc : (l.filter (fun n => n != t)).contains t with
  | false => rfl
  | true =>
    have hm := List.elem_iff.mp hc
    have := (List.mem_filter.mp hm).2
    simp at this

/-- Filtering out an absent name leaves the catalog unchanged. -/
theorem filter_ne_of_not_contains (l : List String) (t : String)
    (h : l.contains t = false) : l.filter (fun n => n != t) = l := by
  apply List.filter_eq_self.mpr
  intro a ha
  have hne : a ≠ t := by
    intro he
    rw [he] at ha
    have hc : l.contains t = true := List.elem_iff.mpr ha
    rw [hc] at h
    exact absurd h (by decide)
  simpa using hne

/-- Rendering a brace-free template is the identity. -/
theorem render_noBrace (bindings : List (String × String)) :
    ∀ l : List Char, l.contains openBrace = false →
      renderAux bindings false [] l = .ok l := by
  intro l
  induction l with
  | nil => intro h; rfl
  | cons c rest ih =>
    intro h
    simp only [List.contains_cons, Bool.or_eq_false_iff] at h
    have hc : ¬ c = openBrace := fun he => by
      rw [he] at h; simp at h
    simp [renderAux, hc, ih h.2, Except.map]

/-- Rendering the delete handler's template substitutes the bound table
identifier. -/
theorem render_drop_template (t : String) :
    renderTemplate [("table", t)] "DROP TABLE IF EXISTS {table}" =
      .ok ("DROP TABLE IF EXISTS ".data ++ t.data) := by
  simp [renderTemplate, renderAux, openBrace, closeBrace, List.lookup, Except.map]

/-- A false `isPrefixOf` test refutes the prefix relation. -/
theorem not_prefix_of_isPrefixOf_false {l1 l2 : List Char}
    (h : l1.isPrefixOf l2 = false) : ¬ l1 <+: l2 := fun hp => by
  rw [(List.isPrefixOf_iff_prefix).mpr hp] at h
  exact absurd h (by decide)

/-- The policy gate classifies the rendered drop statement of a validated
identifier as DDL. -/
theorem classify_drop_rendered (t : String)
    (h : t.data.all isIdentChar = true) :
    classifyChars ("DROP TABLE IF EXISTS ".data ++ t.data) = .ok .DDL := by
  have hsep : ';' ∉ t.data := by
    simpa using no_semicolon_of_ident t.data h
  have hup : upperChars ("DROP TABLE IF EXISTS ".data ++ t.data) =
      "DROP TABLE IF EXISTS ".data ++ upperChars t.data := by
    have hm : upperChars ("DROP TABLE IF EXISTS ".data ++ t.data) =
        upperChars "DROP TABLE IF EXISTS ".data ++ upperChars t.data :=
      List.map_append _ _ _
    have hfix : upperChars "DROP TABLE IF EXISTS ".data =
        "DROP TABLE IF EXISTS ".data := by decide
    rw [hm, hfix]
  simp [classifyChars, hsep, hup, List.isPrefixOf]

/-- The safe executor removes the dropped table from the catalog. -/
theorem execStore_drop (store : Store) (t : String) :
    execStore store ("DROP TABLE IF EXISTS ".data ++ t.data) =
      (.ok ⟨[], []⟩, ⟨store.tables.filter (fun n => n != t)⟩) := by
  have hpre : "DROP TABLE IF EXISTS ".data.isPrefixOf
      ("DROP TABLE IF EXISTS ".data ++ t.data) = true :=
    (List.isPrefixOf_iff_prefix).mpr (List.prefix_append _ _)
  have hdrop : ("DROP TABLE IF EXISTS ".data ++ t.data).drop
      "DROP TABLE IF EXISTS ".data.length = t.data := rfl
  simp [execStore, hpre, hdrop, string_mk_data]

/-- The full safe-execution pipeline on the drop template of a valid
identifier: validation, rendering, DDL classification with the opt-in, and
the catalog update. -/
theorem execute_drop (store : Store) (t : String)
    (h : isErr (validate_identifier t .table) = false) :
    execute_query_safely store "DROP TABLE IF EXISTS {table}"
        [("table", t)] [] true =
      (.ok ⟨[], []⟩, ⟨store.tables.filter (fun n => n != t)⟩) := by
  have hok := validate_ok_eq t .table h
  have hchars := validate_ok_chars t .table h
  have hva : validateAll [("table", t)] = .ok () := by
    simp [validateAll, hok]
  simp only [execute_query_safely, hva, render_drop_template t,
    classify_drop_rendered t hchars]
  simpa using execStore_drop store t

/-- A statement whose leading keyword is off the allow-list, or which
contains a separator, is rejected by the policy gate. -/
theorem classify_not_allowed (stmt : List Char)
    (h : allowedLeadingKeyword stmt = false ∨ stmt.contains ';' = true) :
    ∃ m, classifyChars stmt = .error (.rejectedStatement m) := by
  cases hsep : stmt.contains ';' with
  | true =>
    have hsep2 : ';' ∈ stmt := by simpa using hsep
    exact ⟨"multi-statement batches are not allowed", by simp [classifyChars, hsep2]⟩
  | false =>
    have hsep2 : ';' ∉ stmt := by simpa using hsep
    have hkw : allowedLeadingKeyword stmt = false := by
      rcases h with h | h
      · exact h
      · rw [hsep] at h; exact absurd h (by simp)
    simp only [allowedLeadingKeyword, Bool.or_eq_false_iff] at hkw
    obtain ⟨⟨⟨⟨h1, h2⟩, h3⟩, h4⟩, h5⟩ := hkw
    have h1b := not_prefix_of_isPrefixOf_false h1
    have h2b := not_prefix_of_isPrefixOf_false h2
    have h3b := not_prefix_of_isPrefixOf_false h3
    have h4b := not_prefix_of_isPrefixOf_false h4
    have h5b := not_prefix_of_isPrefixOf_false h5
    exact ⟨"statement kind is not allowed",
      by simp [classifyChars, hsep2, h1b, h2b, h3b, h4b, h5b]⟩

/-- A statement with a DDL leading keyword and no separator classifies as
DDL. -/
theorem classify_ddl (stmt : List Char) (hsep : stmt.contains ';' = false)
    (hkw : ddlLeadingKeyword stmt = true) :
    classifyChars stmt = .ok .DDL := by
  have hsep2 : ';' ∉ stmt := by simpa using hsep
  simp only [ddlLeadingKeyword, Bool.or_eq_true] at hkw
  rcases hkw with (hd | hd) | hd <;>
    obtain ⟨rest, hrest⟩ := (List.isPrefixOf_iff_prefix).mp hd <;>
    simp [classifyChars, hsep2, ← hrest, List.isPrefixOf]

/-- An erroring `Except` value carries some error. -/
theorem err_exists {ε α : Type} (x : Except ε α) (h : isErr x = true) :
    ∃ e, x = .error e := by
  cases x with
  | error e => exact ⟨e, rfl⟩
  | ok v => exact absurd h (by simp [isErr])

/-- All three converters fail when the supplied table name is invalid. -/
theorem conv_err_of_invalid (data : TabularData) (tn : String)
    (h : isErr (validate_identifier tn .table) = true) :
    ∃ m, convert_csv_to_sqlite data tn = .error m ∧
      convert_json_to_sqlite data tn = .error m ∧
      convert_jsonl_to_sqlite data tn = .error m := by
  obtain ⟨e, he⟩ := err_exists _ h
  exact ⟨securityMsg e, by simp [convert_csv_to_sqlite, he],
    by simp [convert_json_to_sqlite, he], by simp [convert_jsonl_to_sqlite, he]⟩

/-- Claim C1: `validate_identifier(raw, kind)` fails with an
invalid-identifier error exactly when `raw` is empty, exceeds the maximum
length, contains a character outside letters, digits and underscore, starts
with a digit, or equals a reserved SQL keyword; in particular the injection
payload with a semicolon and spaces is rejected, and the delete handler
rejects it before any statement is built, leaving the store untouched. -/
theorem C1_validate_identifier_characterization :
    (∀ (raw : String) (kind : IdentifierKind),
      isErr (validate_identifier raw kind) = true ↔
        (raw = "" ∨ MAX_IDENTIFIER_LENGTH < raw.length ∨
         (∃ c ∈ raw.data, isIdentChar c = false) ∨
         headIsDigit raw.data = true ∨
         String.mk (lowerChars raw.data) ∈ RESERVED_KEYWORDS)) ∧
    isErr (validate_identifier "users; DROP TABLE users" .table) = true ∧
    (∀ store : Store, delete_table store "users; DROP TABLE users" =
      (.error (.badRequest "identifier contains invalid characters"), store)) := by
  refine ⟨?_, by decide, ?_⟩
  · intro raw kind
    unfold validate_identifier
    split_ifs with h1 h2 h3 h4 h5
    · exact iff_of_true rfl (Or.inl h1)
    · exact iff_of_true rfl (Or.inr (Or.inl h2))
    · refine iff_of_true rfl (Or.inr (Or.inr (Or.inl ?_)))
      have hne : ¬ ∀ c ∈ raw.data, isIdentChar c = true := by
        rw [← List.all_eq_true, h3]
        simp
      push_neg at hne
      obtain ⟨c, hc, hn⟩ := hne
      exact ⟨c, hc, by simpa using hn⟩
    · exact iff_of_true rfl (Or.inr (Or.inr (Or.inr (Or.inl h4))))
    · exact iff_of_true rfl
        (Or.inr (Or.inr (Or.inr (Or.inr (List.elem_iff.mp h5)))))
    · refine iff_of_false (by simp [isErr]) ?_
      rintro (he | hl | ⟨c, hc, hn⟩ | hd | hres)
      · exact h1 he
      · exact h2 hl
      · have hall := List.all_eq_true.mp (Bool.eq_true_of_not_eq_false h3) c hc
        rw [hall] at hn
        exact absurd hn (by decide)
      · exact h4 hd
      · exact h5 (List.elem_iff.mpr hres)
  · intro store
    have hvr : validate_identifier "users; DROP TABLE users" .table =
        .error (.invalidIdentifier "identifier contains invalid characters") := by
      decide
    simp [delete_table, hvr, securityMsg]

/-- Claim C2: a statement whose leading keyword is off the allow-list, or
which contains a statement separator, is rejected by `execute_query_safely`
with a rejected-statement error regardless of `allow_ddl`, and the store is
left untouched. -/
theorem C2_nonallowlisted_rejected (store : Store) (s : String) (b : Bool)
    (hnb : s.data.contains openBrace = false)
    (h : allowedLeadingKeyword s.data = false ∨ s.data.contains ';' = true) :
    ∃ m, execute_query_safely store s [] [] b =
      (.error (.rejectedStatement m), store) := by
  obtain ⟨m, hm⟩ := classify_not_allowed s.data h
  refine ⟨m, ?_⟩
  have hr : renderTemplate [] s = .ok s.data := render_noBrace [] s.data hnb
  have hva : validateAll ([] : List (String × String)) = .ok () := rfl
  simp only [execute_query_safely, hva, hr, hm]

/-- Witness for C2 at an UPDATE-free DELETE statement (with `allow_ddl`
even set to true) and at the multi-statement SELECT-then-DELETE payload. -/
theorem C2_nonallowlisted_rejected_witness :
    (∃ m, execute_query_safely ⟨["customers"]⟩ "DELETE FROM customers" [] [] true =
      (.error (.rejectedStatement m), ⟨["customers"]⟩)) ∧
    (∃ m, execute_query_safely ⟨["customers"]⟩
        "SELECT * FROM customers WHERE 1=1; DELETE FROM customers" [] [] false =
      (.error (.rejectedStatement m), ⟨["customers"]⟩)) :=
  ⟨C2_nonallowlisted_rejected ⟨["customers"]⟩ "DELETE FROM customers" true
      (by decide) (Or.inl (by decide)),
   C2_nonallowlisted_rejected ⟨["customers"]⟩
      "SELECT * FROM customers WHERE 1=1; DELETE FROM customers" false
      (by decide) (Or.inr (by decide))⟩

/-- Claim C3: a DDL-classified statement with `allow_ddl = false` fails with
a DDL-not-permitted error and leaves the store untouched; with
`allow_ddl = true` and a pre-validated identifier, the drop template
succeeds when the table exists, and is a successful no-op on a missing
table. -/
theorem C3_ddl_gate :
    (∀ (store : Store) (s : String),
      s.data.contains openBrace = false →
      s.data.contains ';' = false →
      ddlLeadingKeyword s.data = true →
      execute_query_safely store s [] [] false =
        (.error (.ddlNotPermitted "DDL statements require explicit opt-in"), store)) ∧
    (∀ (store : Store) (t : String),
      isErr (validate_identifier t .table) = false →
      check_table_exists store t = true →
      (execute_query_safely store "DROP TABLE IF EXISTS {table}"
        [("table", t)] [] true).1 = .ok ⟨[], []⟩) ∧
    (∀ (store : Store) (t : String),
      isErr (validate_identifier t .table) = false →
      check_table_exists store t = false →
      execute_query_safely store "DROP TABLE IF EXISTS {table}"
        [("table", t)] [] true = (.ok ⟨[], []⟩, store)) := by
  refine ⟨?_, ?_, ?_⟩
  · intro store s hnb hsep hkw
    have hc := classify_ddl s.data hsep hkw
    have hr : renderTemplate [] s = .ok s.data := render_noBrace [] s.data hnb
    have hva : validateAll ([] : List (String × String)) = .ok () := rfl
    simp only [execute_query_safely, hva, hr, hc]
    simp
  · intro store t hv _
    rw [execute_drop store t hv]
  · intro store t hv hne
    rw [execute_drop store t hv]
    have hfix : store.tables.filter (fun n => n != t) = store.tables :=
      filter_ne_of_not_contains store.tables t hne
    rw [hfix]

/-- Witness for C3: the gate refuses a plain DROP TABLE without the opt-in;
with the opt-in the drop template succeeds on an existing table and is a
no-op on a missing one. -/
theorem C3_ddl_gate_witness :
    (execute_query_safely ⟨["users"]⟩ "DROP TABLE users" [] [] false =
      (.error (.ddlNotPermitted "DDL statements require explicit opt-in"),
        ⟨["users"]⟩)) ∧
    ((execute_query_safely ⟨["orders"]⟩ "DROP TABLE IF EXISTS {table}"
      [("table", "orders")] [] true).1 = .ok ⟨[], []⟩) ∧
    (execute_query_safely ⟨[]⟩ "DROP TABLE IF EXISTS {table}"
      [("table", "orders")] [] true = (.ok ⟨[], []⟩, ⟨[]⟩)) :=
  ⟨C3_ddl_gate.1 ⟨["users"]⟩ "DROP TABLE users" (by decide) (by decide) (by decide),
   C3_ddl_gate.2.1 ⟨["orders"]⟩ "orders" (by decide) (by decide),
   C3_ddl_gate.2.2 ⟨[]⟩ "orders" (by decide) (by decide)⟩

/-- Claim C6: dropping an existing table through the safe-execution pipeline
with the DDL opt-in removes it from the catalog, and a subsequent
`check_table_exists` on the resulting store returns false. -/
theorem C6_drop_removes_table (store : Store) (t : String)
    (hv : isErr (validate_identifier t .table) = false)
    (hex : check_table_exists store t = true) :
    execute_query_safely store "DROP TABLE IF EXISTS {table}"
        [("table", t)] [] true =
      (.ok ⟨[], []⟩, ⟨store.tables.filter (fun n => n != t)⟩) ∧
    check_table_exists ⟨store.tables.filter (fun n => n != t)⟩ t = false :=
  ⟨execute_drop store t hv, contains_filter_ne store.tables t⟩

/-- Witness for C6 at the spec scenario: the store holds table `orders`,
the drop succeeds, and the existence check on the new store is false. -/
theorem C6_drop_removes_table_witness :
    execute_query_safely ⟨["orders"]⟩ "DROP TABLE IF EXISTS {table}"
        [("table", "orders")] [] true =
      (.ok ⟨[], []⟩, ⟨List.filter (fun n => n != "orders") ["orders"]⟩) ∧
    check_table_exists ⟨List.filter (fun n => n != "orders") ["orders"]⟩
      "orders" = false :=
  C6_drop_removes_table ⟨["orders"]⟩ "orders" (by decide) (by decide)

/-- Claim C7 counterexample: the delete and export handlers, given the name
of a table that does not exist in the store, can fail with a validation
error instead of a not-found error — the claim as stated is false.  The
injection payload names no existing table, yet neither handler produces a
404.  The delete handler answers with a 400 validation failure. -/
theorem C7_counterexample :
    check_table_exists ⟨[]⟩ "users; DROP TABLE users" = false ∧
    isNotFoundResult (delete_table ⟨[]⟩ "users; DROP TABLE users").1 = false ∧
    isNotFoundResult
      (export_table ⟨[]⟩ "users; DROP TABLE users" (fun _ _ => "")) = false ∧
    (delete_table ⟨[]⟩ "users; DROP TABLE users").1 =
      .error (.badRequest "identifier contains invalid characters") := by
  refine ⟨by decide, ?_, ?_, ?_⟩ <;> decide

/-- Claim C7 as amended: for a request whose table name passes identifier
validation but does not exist in the store, the delete and export handlers
fail with a not-found error and the store is unchanged, no statement having
been executed. -/
theorem C7_missing_table_not_found (store : Store) (name : String)
    (csvGen : Store → String → String)
    (hv : isErr (validate_identifier name .table) = false)
    (hne : check_table_exists store name = false) :
    delete_table store name =
      (.error (.notFound ("Table " ++ name ++ " not found")), store) ∧
    export_table store name csvGen =
      .error (.notFound ("Table " ++ name ++ " not found")) := by
  have hok := validate_ok_eq name .table hv
  constructor
  · simp only [delete_table, hok, hne]
    simp
  · simp only [export_table, hok, hne]
    simp

/-- Witness for the amended C7: table `orders` passes validation, is absent
from a store holding only `customers`, and both handlers answer 404. -/
theorem C7_missing_table_not_found_witness :
    delete_table ⟨["customers"]⟩ "orders" =
      (.error (.notFound ("Table " ++ "orders" ++ " not found")), ⟨["customers"]⟩) ∧
    export_table ⟨["customers"]⟩ "orders" (fun _ _ => "") =
      .error (.notFound ("Table " ++ "orders" ++ " not found")) :=
  C7_missing_table_not_found ⟨["customers"]⟩ "orders" (fun _ _ => "")
    (by decide) (by decide)

/-- Claim C4 counterexample: a store-level failure message — here a raw
store diagnostic with an internal file path — is returned verbatim to the
caller in the query response's error field, so raw diagnostics are not kept
server-side only. -/
theorem C4_counterexample :
    (process_natural_language_query (.ok ⟨[]⟩)
      (fun _ => .ok "SELECT name FROM users")
      (fun _ => .error "unable to open database file db/database.db") 0).error =
    some "unable to open database file db/database.db" := rfl

/-- Claim C4 as amended: every failure of the query pipeline is caught and
answered with a response whose error field carries the raised exception's
message text verbatim (unsanitized, with no correlation id), alongside empty
result fields; only the logged traceback stays server-side. -/
theorem C4_raw_message_returned :
    (∀ (si : SchemaInfo) (sql m : String) (t : Nat),
      process_natural_language_query (.ok si) (fun _ => .ok sql)
        (fun _ => .error m) t = QueryResponse.mk "" [] [] 0 0 (some m)) ∧
    (∀ (si : SchemaInfo) (sql m : String) (rows : List (List String))
        (cols : List String) (t : Nat),
      process_natural_language_query (.ok si) (fun _ => .ok sql)
        (fun _ => .ok (SQLResult.mk rows cols (some m))) t =
        QueryResponse.mk "" [] [] 0 0 (some m)) :=
  ⟨fun _ _ _ _ => rfl, fun _ _ _ _ _ _ => rfl⟩

/-- Claim C5 counterexample: a successful execution returning zero rows
yields a response in which neither the rows nor the error are populated, so
exactly-one-of-the-two does not hold on it. -/
theorem C5_counterexample :
    ((rowsPopulated (process_natural_language_query (.ok ⟨[]⟩)
        (fun _ => .ok "SELECT a FROM t")
        (fun _ => .ok (SQLResult.mk [] ["a"] none)) 3) &&
      !errorPopulated (process_natural_language_query (.ok ⟨[]⟩)
        (fun _ => .ok "SELECT a FROM t")
        (fun _ => .ok (SQLResult.mk [] ["a"] none)) 3)) ||
     (!rowsPopulated (process_natural_language_query (.ok ⟨[]⟩)
        (fun _ => .ok "SELECT a FROM t")
        (fun _ => .ok (SQLResult.mk [] ["a"] none)) 3) &&
      errorPopulated (process_natural_language_query (.ok ⟨[]⟩)
        (fun _ => .ok "SELECT a FROM t")
        (fun _ => .ok (SQLResult.mk [] ["a"] none)) 3))) = false := by
  decide

/-- Claim C5 as amended: at most one of rows and error is populated, never
both — every query response either carries no error, or carries an error
together with empty results, columns, a zero row count and an empty sql
text; a successful zero-row execution populates neither. -/
theorem C5_at_most_one_populated (schemaStep : Except String SchemaInfo)
    (gen : SchemaInfo → Except String String)
    (exec : String → Except String SQLResult) (t : Nat) :
    (process_natural_language_query schemaStep gen exec t).error = none ∨
    ((process_natural_language_query schemaStep gen exec t).results = [] ∧
     (process_natural_language_query schemaStep gen exec t).columns = [] ∧
     (process_natural_language_query schemaStep gen exec t).row_count = 0 ∧
     (process_natural_language_query schemaStep gen exec t).sql = "") := by
  cases schemaStep with
  | error e => exact Or.inr ⟨rfl, rfl, rfl, rfl⟩
  | ok si =>
    cases hg : gen si with
    | error e =>
      simp [process_natural_language_query, hg]
    | ok sql =>
      cases he : exec sql with
      | error e =>
        simp [process_natural_language_query, hg, he]
      | ok r =>
        cases hre : r.error with
        | some e =>
          simp [process_natural_language_query, hg, he, hre]
        | none =>
          simp [process_natural_language_query, hg, he, hre]

/-- Claim C9: the upload handler is total at its interface — an unsupported
extension is answered by the 400 exception text in the error field, and
every response either succeeds with no error or carries an empty table
name, empty schema, zero row count, empty sample data and a populated error
message; no exception propagates. -/
theorem C9_upload_total :
    (∀ (fn : String) (data : TabularData),
      endsWithAny fn [".csv", ".json", ".jsonl"] = false →
      upload_file fn data = FileUploadResponse.mk "" [] 0 []
        (some "400: Only .csv, .json, and .jsonl files are supported")) ∧
    (∀ (fn : String) (data : TabularData),
      (upload_file fn data).error = none ∨
      ((upload_file fn data).table_name = "" ∧
       (upload_file fn data).table_schema = [] ∧
       (upload_file fn data).row_count = 0 ∧
       (upload_file fn data).sample_data = [] ∧
       (upload_file fn data).error.isSome = true)) := by
  constructor
  · intro fn data h
    simp [upload_file, h]
  · intro fn data
    cases hext : endsWithAny fn [".csv", ".json", ".jsonl"] with
    | false => simp [upload_file, hext]
    | true =>
      cases h1 : strEndsWith fn ".csv" with
      | true =>
        cases hc : convert_csv_to_sqlite data (tableNameFromFilename fn) with
        | error e => simp [upload_file, hext, h1, hc]
        | ok r => simp [upload_file, hext, h1, hc]
      | false =>
        cases h2 : strEndsWith fn ".jsonl" with
        | true =>
          cases hc : convert_jsonl_to_sqlite data (tableNameFromFilename fn) with
          | error e => simp [upload_file, hext, h1, h2, hc]
          | ok r => simp [upload_file, hext, h1, h2, hc]
        | false =>
          cases hc : convert_json_to_sqlite data (tableNameFromFilename fn) with
          | error e => simp [upload_file, hext, h1, h2, hc]
          | ok r => simp [upload_file, hext, h1, h2, hc]

/-- Witness for C9 at an unsupported extension. -/
theorem C9_upload_total_witness :
    upload_file "data.exe" ⟨[], []⟩ = FileUploadResponse.mk "" [] 0 []
      (some "400: Only .csv, .json, and .jsonl files are supported") :=
  C9_upload_total.1 "data.exe" ⟨[], []⟩ (by decide)

/-- Claim C8: every converter re-validates the untrusted, filename-derived
table name through `validate_identifier` before building statement text —
a successful conversion implies the name passed validation and only the
validated identifier appears in the CREATE TABLE text — and an upload whose
derived table name fails validation is answered with an error response, the
name never reaching any statement. -/
theorem C8_upload_name_validated :
    (∀ (data : TabularData) (tn : String) (res : ConvResult),
      convert_csv_to_sqlite data tn = .ok res →
        validate_identifier tn .table = .ok tn ∧
        res.create_sql = "CREATE TABLE " ++ tn ++ " (...)") ∧
    (∀ (data : TabularData) (tn : String) (res : ConvResult),
      convert_json_to_sqlite data tn = .ok res →
        validate_identifier tn .table = .ok tn ∧
        res.create_sql = "CREATE TABLE " ++ tn ++ " (...)") ∧
    (∀ (data : TabularData) (tn : String) (res : ConvResult),
      convert_jsonl_to_sqlite data tn = .ok res →
        validate_identifier tn .table = .ok tn ∧
        res.create_sql = "CREATE TABLE " ++ tn ++ " (...)") ∧
    (∀ (fn : String) (data : TabularData),
      isErr (validate_identifier (tableNameFromFilename fn) .table) = true →
      (upload_file fn data).error.isSome = true) := by
  refine ⟨?_, ?_, ?_, ?_⟩
  · intro data tn res h
    cases hv : validate_identifier tn .table with
    | error e => simp [convert_csv_to_sqlite, hv] at h
    | ok v =>
      have hvt := validate_ok_val tn v .table hv
      subst hvt
      simp only [convert_csv_to_sqlite, hv] at h
      cases h
      exact ⟨rfl, rfl⟩
  · intro data tn res h
    cases hv : validate_identifier tn .table with
    | error e => simp [convert_json_to_sqlite, hv] at h
    | ok v =>
      have hvt := validate_ok_val tn v .table hv
      subst hvt
      simp only [convert_json_to_sqlite, hv] at h
      cases h
      exact ⟨rfl, rfl⟩
  · intro data tn res h
    cases hv : validate_identifier tn .table with
    | error e => simp [convert_jsonl_to_sqlite, hv] at h
    | ok v =>
      have hvt := validate_ok_val tn v .table hv
      subst hvt
      simp only [convert_jsonl_to_sqlite, hv] at h
      cases h
      exact ⟨rfl, rfl⟩
  · intro fn data h
    obtain ⟨m, hcsv, hjson, hjsonl⟩ :=
      conv_err_of_invalid data (tableNameFromFilename fn) h
    cases hext : endsWithAny fn [".csv", ".json", ".jsonl"] with
    | false => simp [upload_file, hext]
    | true =>
      cases h1 : strEndsWith fn ".csv" with
      | true => simp [upload_file, hext, h1, hcsv]
      | false =>
        cases h2 : strEndsWith fn ".jsonl" with
        | true => simp [upload_file, hext, h1, h2, hjsonl]
        | false => simp [upload_file, hext, h1, h2, hjson]

/-- Witness for C8: a valid derived name converts with the validated
identifier in the statement text, and a digit-leading filename-derived name
is rejected before any statement is built. -/
theorem C8_upload_name_validated_witness :
    (validate_identifier "users" .table = .ok "users" ∧
     (ConvResult.mk "users" [("a", "TEXT")] 0 [] "CREATE TABLE users (...)").create_sql =
       "CREATE TABLE " ++ "users" ++ " (...)") ∧
    (upload_file "1data.csv" ⟨[], []⟩).error.isSome = true :=
  ⟨C8_upload_name_validated.1 ⟨["a"], []⟩ "users"
      (ConvResult.mk "users" [("a", "TEXT")] 0 [] "CREATE TABLE users (...)")
      (by decide),
   C8_upload_name_validated.2.2.2 "1data.csv" ⟨[], []⟩ (by decide)⟩

/-- Claim C10: in every schema endpoint response, each table's `created_at`
equals the time the request was handled, and every column is reported with
`nullable = true` and `primary_key = false`, whatever the snapshot
contains. -/
theorem C10_schema_endpoint_constants (schemaStep : Except String SchemaInfo)
    (now : Nat) :
    ((get_database_schema_endpoint schemaStep now).tables.all
      (fun t => (t.created_at == now) &&
        t.columns.all (fun c => c.nullable && !c.primary_key))) = true := by
  cases schemaStep with
  | error e => rfl
  | ok s =>
    simp only [get_database_schema_endpoint]
    rw [List.all_eq_true]
    intro t ht
    rw [List.mem_map] at ht
    obtain ⟨p, hp, rfl⟩ := ht
    simp only [Bool.and_eq_true]
    refine ⟨by simp, ?_⟩
    rw [List.all_eq_true]
    intro c hc
    rw [List.mem_map] at hc
    obtain ⟨q, hq, rfl⟩ := hc
    rfl

end NLQ
